import Mathlib

/-!
Verification development for the Magic-Mirror repository's generation core:
the input-normalization helper `prepareImageForAPI`, the retry wrapper
`withRetry`, the two generation entry points `generateMarketingImage` and
`generateVariantImage` (file `services/geminiService.ts`, provided as
`src/unnamed/part_002`; callers import `generateVariantImage` from
`../services/geminiService`, which only that file exports, so it is the live
module and the copy at `src/services/geminiService.ts` is a stale duplicate),
and the A/B-test aggregation in `handleRunABTest` (`src/unnamed/part_000`).

JavaScript strings are modelled by Lean `String`; the JS string methods used
by the code (`startsWith`, `includes`, `split`) are given explicit executable
models below with JS semantics (substring scan from the left, non-overlapping
split on every occurrence of a non-empty separator).
-/

namespace MagicMirror

/-! ## JS string-method model -/

/-- Model of "l is a prefix of r" on character lists (Boolean). -/
def isPrefixOfB : List Char → List Char → Bool
  | [], _ => true
  | _ :: _, [] => false
  | a :: as, b :: bs => a == b && isPrefixOfB as bs

/-- Boolean substring occurrence: does `sep` occur (as a contiguous block)
somewhere in the list?  Scans every start position from the left. -/
def occursB (sep : List Char) : List Char → Bool
  | [] => isPrefixOfB sep []
  | c :: rest => isPrefixOfB sep (c :: rest) || occursB sep rest

/-- Fuelled splitter: JS `String.prototype.split` on a non-empty separator.
`acc` is the reversed current segment.  With `fuel ≥ length of the input`
the fuel never runs out (each step consumes at least one character). -/
def splitFuel (sep : List Char) : Nat → List Char → List Char → List (List Char)
  | _, [], acc => [acc.reverse]
  | 0, s, acc => [acc.reverse ++ s]
  | fuel + 1, c :: rest, acc =>
    if isPrefixOfB sep (c :: rest) then
      acc.reverse :: splitFuel sep fuel (List.drop sep.length (c :: rest)) []
    else
      splitFuel sep fuel rest (c :: acc)

/-- JS `s.startsWith(p)`. -/
def jsStartsWith (s p : String) : Bool := isPrefixOfB p.data s.data

/-- JS `s.includes(p)`. -/
def jsIncludes (s p : String) : Bool := occursB p.data s.data

/-- JS `s.split(sep)` for a non-empty separator `sep`. -/
def jsSplit (s sep : String) : List String :=
  (splitFuel sep.data (s.data.length + 1) s.data []).map (fun l => String.mk l)

/-! ## Error and response model -/

/-- A thrown JS error as observed by `withRetry`: an optional numeric
`status` (as carried by the SDK's API errors) and a `message`. -/
structure JsError where
  status : Option Nat
  message : String
deriving DecidableEq

/-- One content part of the remote response; the code only inspects
`part.inlineData` (and `inlineData.data`), so a part is modelled by the
optional inline-image payload it carries. -/
structure ResponsePart where
  inlineData : Option String
deriving DecidableEq

/-- The extraction loop shared by both call sites:
`for (const part of parts) { if (part.inlineData) { ...; break } }` —
the payload of the first part carrying inline data, if any. -/
def firstInlineData : List ResponsePart → Option String
  | [] => none
  | p :: ps =>
    match p.inlineData with
    | some d => some d
    | none => firstInlineData ps

/-- Result value of a generation call (`{ imageUrl }`). -/
structure GenResult where
  imageUrl : String
deriving DecidableEq

/-- `GenerationConfig` from `types.ts`: five independent Boolean flags. -/
structure GenerationConfig where
  blackAndWhite : Bool
  strictPose : Bool
  keepFace : Bool
  lockLocation : Bool
  lockProduct : Bool
deriving DecidableEq

/-! ## Retry wrapper (`withRetry`, part_002 lines 39-56) -/

/-- Error classification of `withRetry`'s catch clause:
`error.status === 503 || error.status === 500 ||
 error.message?.includes('Internal error') ||
 error.message?.includes('Overloaded')`. -/
def isRetryable (e : JsError) : Bool :=
  e.status == some 503 || e.status == some 500 ||
    jsIncludes e.message "Internal error" || jsIncludes e.message "Overloaded"

/-- Observable outcome of a `withRetry` run: how many times the wrapped
operation was invoked, the sequence of waits (in ms) performed between
attempts, and the final outcome.  `Except.error none` corresponds to the
(unreachable with positive `retries`) rethrow of the uninitialized
`lastError`. -/
structure RetryTrace (α : Type) where
  attempts : Nat
  delays : List Nat
  result : Except (Option JsError) α

/-- The loop body of `withRetry`: `i` is the current attempt index, the
fuel is the number of loop iterations left (`retries - i`), and the last
argument is the current value of `lastError`.  On a retryable error the
code waits `delay * (i + 1)` ms and continues; on any other error it
rethrows immediately; after the loop it rethrows `lastError`. -/
def withRetryAux {α : Type} (op : Nat → Except JsError α) (delay : Nat) :
    Nat → Nat → Option JsError → RetryTrace α
  | _, 0, lastError => ⟨0, [], Except.error lastError⟩
  | i, fuel + 1, _ =>
    match op i with
    | Except.ok v => ⟨1, [], Except.ok v⟩
    | Except.error e =>
      if isRetryable e then
        let rest := withRetryAux op delay (i + 1) fuel (some e)
        ⟨rest.attempts + 1, delay * (i + 1) :: rest.delays, rest.result⟩
      else ⟨1, [], Except.error (some e)⟩

/-- `withRetry(operation, retries, delay)`; the source defaults are
`retries = 3`, `delay = 1000`.  The operation is modelled as a function of
the attempt index, so that distinct attempts may observe distinct
outcomes. -/
def withRetry {α : Type} (op : Nat → Except JsError α) (retries delay : Nat) :
    RetryTrace α :=
  withRetryAux op delay 0 retries none

/-! ## Input normalization (`prepareImageForAPI`, part_002 lines 6-36) -/

/-- Outcome of the browser-side fetch-and-reencode pipeline for a remote
URL (fetch → blob → `FileReader.readAsDataURL`).  `ok dataUrl` is the
reader's result (a data URL); `err` collapses the three failure modes the
`try` block can hit (fetch rejection, a non-ok HTTP response, a reader
error), all of which land in the same `catch`. -/
inductive FetchOutcome where
  | ok (dataUrl : String)
  | err

/-- Which of the three branches of `prepareImageForAPI` fired. -/
inductive PreparePath where
  | fetchPath
  | stripPath
  | passPath
deriving DecidableEq

/-- `prepareImageForAPI`, instrumented with the branch taken.
Branch 1 (`input.startsWith('http')`): fetch the URL, read it back as a
data URL and keep `res.split(',')[1]`; on any failure throw the
source-fetch error.  Branch 2 (`input.includes('base64,')`): keep
`input.split('base64,')[1]`.  Branch 3: return `input` unchanged.
(JS indexing `[1]` is modelled by `getD 1 ""`; in branch 2 the guard
guarantees at least two segments, and a `FileReader` data URL always
contains a comma.) -/
def prepareImageForAPIWithPath (env : String → FetchOutcome) (input : String) :
    PreparePath × Except JsError String :=
  if jsStartsWith input "http" then
    (PreparePath.fetchPath,
      match env input with
      | FetchOutcome.ok dataUrl => Except.ok ((jsSplit dataUrl ",").getD 1 "")
      | FetchOutcome.err =>
          Except.error ⟨none,
            "Could not process source image. If using a demo image, ensure CORS is allowed."⟩)
  else if jsIncludes input "base64," then
    (PreparePath.stripPath, Except.ok ((jsSplit input "base64,").getD 1 ""))
  else
    (PreparePath.passPath, Except.ok input)

/-- `prepareImageForAPI` proper: the value produced (or error thrown). -/
def prepareImageForAPI (env : String → FetchOutcome) (input : String) :
    Except JsError String :=
  (prepareImageForAPIWithPath env input).2

/-- The error thrown when the remote-URL fetch pipeline fails. -/
def sourceFetchError : JsError :=
  ⟨none, "Could not process source image. If using a demo image, ensure CORS is allowed."⟩

/-! ## Prompt composition (part_002 lines 73-120) -/

/-- Default `stylePrompt` initializer (shared verbatim by the live module
and the stale duplicate). -/
def stylePromptDefault : String :=
  "Commercial, High Key, 8k Resolution, Sharp Focus."

/-- `stylePrompt` when `config.blackAndWhite` is set (shared verbatim). -/
def stylePromptMono : String :=
  "Black and White Photography, High Contrast, Noir Style, Ansel Adams aesthetic."

/-- `posePrompt` initializer (shared verbatim). -/
def posePromptBase : String :=
  "The object being held (the product) MUST remain exactly as it appears. Ensure the hand grip is natural."

/-- Appended to `posePrompt` when `config.strictPose` is set (live module). -/
def posePromptStrict : String :=
  " STRICTLY mimic the exact arm angle, hand grip, and body posture of the reference image. Do not move the arm."

/-- Appended to `posePrompt` when `config.strictPose` is unset (live module). -/
def posePromptLoose : String :=
  " You have creative freedom with the pose. Analyze the product type and use your best judgement to select the most flattering angle, grip, and body posture to showcase it. Change the arm position to what sells this specific product best. Do not feel bound by the original posture."

/-- `facePrompt` when `config.keepFace` is set: the identity-retention
clause (shared verbatim by both modules). -/
def keepFaceClause : String :=
  "Keep the user\x27s face and identity recognizable, but enhance lighting and skin texture for a professional look."

/-- `facePrompt` when `config.keepFace` is unset in the live module: the
generative-replacement clause with demographic targeting language. -/
def replaceFaceClause : String :=
  "Generative swap: Replace the person in the image with a generated model. Use your best judgement to select a model (age, gender, style) that creates the strongest appeal for this specific product demographic. Do NOT preserve the original identity."

/-- `locationPrompt` when `config.lockLocation` is set (shared verbatim). -/
def locationClause : String :=
  "Maintain the original background environment and geometry. Do not generate a new background, only enhance the existing one."

/-- `productPreservationPrompt` initializer (shared verbatim). -/
def productClauseDefault : String :=
  "The object held in the hand is the focus."

/-- `productPreservationPrompt` when `config.lockProduct` is set (live
module template literal, 8-space indentation). -/
def productClauseStrict : String :=
  "\n        CRITICAL - PRODUCT PRESERVATION:\n        The object held in the hand is a real commercial product. \n        You MUST preserve the PRODUCT TEXT, LOGOS, and LABEL DETAILS exactly as they appear in the reference image.\n        Do not hallucinate new text on the label. Do not blur or distort the brand name.\n        Treat the product pixels as ground truth.\n        "

/-- The fixed pieces of the live module\x27s final template literal, in
order of appearance between the interpolation slots. -/
def promptLead : String :=
  "\n        Professional Product Photography. \n        Task: Transform this reference image into a high-end commercial advertisement.\n        \n        "

def promptBeforePose : String := "\n  \n        Product Integrity: "

def promptBeforeFace : String := "\n        Subject: "

def promptBeforeContext : String := "\n        Context/Background: "

def promptBeforeStyle : String := "\n        Style: "

def promptTail : String := "\n      "

/-- The prompt built by `generateMarketingImage` in the live service module
(part_002 lines 73-120).  The source assigns each local (`stylePrompt`,
`posePrompt`, `facePrompt`, `locationPrompt`, `productPreservationPrompt`)
by an initializer plus conditional reassignment/append; each becomes a
conditional over the named clause constants above (note the source
initializes `facePrompt` to a generic replacement sentence and then
overwrites it in both branches of `if (config.keepFace)`, so that
initializer is dead and the net effect is the conditional below).  The
final template literal is the concatenation, with every literal fragment
(newlines and indentation included) reproduced byte-for-byte. -/
def composePrompt (config : GenerationConfig) (userPrompt : String) : String :=
  promptLead ++
    (if config.lockProduct then productClauseStrict else productClauseDefault) ++
    promptBeforePose ++
    (posePromptBase ++
      (if config.strictPose then posePromptStrict else posePromptLoose)) ++
    promptBeforeFace ++
    (if config.keepFace then keepFaceClause else replaceFaceClause) ++
    promptBeforeContext ++ userPrompt ++ ". " ++
    (if config.lockLocation then locationClause else "") ++
    promptBeforeStyle ++
    (if config.blackAndWhite then stylePromptMono else stylePromptDefault) ++
    promptTail

/-- `posePrompt` strict-mode suffix in the stale duplicate (no trailing
"Do not move the arm." sentence). -/
def stalePosePromptStrict : String :=
  " STRICTLY mimic the exact arm angle, hand grip, and body posture of the reference image."

/-- `facePrompt` in the stale duplicate when `config.keepFace` is unset:
the generic initializer is kept (there is no else-branch). -/
def staleFaceDefault : String :=
  "Replace the person with a professional model or character that fits the context."

/-- `productPreservationPrompt` strict clause in the stale duplicate
(6-space indentation). -/
def staleProductClauseStrict : String :=
  "\n      CRITICAL - PRODUCT PRESERVATION:\n      The object held in the hand is a real commercial product. \n      You MUST preserve the PRODUCT TEXT, LOGOS, and LABEL DETAILS exactly as they appear in the reference image.\n      Do not hallucinate new text on the label. Do not blur or distort the brand name.\n      Treat the product pixels as ground truth.\n      "

/-- Fixed template pieces of the stale duplicate\x27s final literal. -/
def stalePromptLead : String :=
  "\n      Professional Product Photography. \n      Task: Transform this reference image into a high-end commercial advertisement.\n      \n      "

def stalePromptBeforePose : String := "\n\n      Product Integrity: "

def stalePromptBeforeFace : String := "\n      Subject: "

def stalePromptBeforeContext : String := "\n      Context/Background: "

def stalePromptBeforeStyle : String := "\n      Style: "

def stalePromptTail : String := "\n    "

/-- The prompt built by the `generateMarketingImage` copy in the stale
duplicate `src/services/geminiService.ts` (dead code: callers import from
`../services/geminiService`, which must also export `generateVariantImage`,
and only the live module does).  It differs from the live composer in its
`posePrompt` (strict suffix without the trailing sentence, empty when
`strictPose` is unset) and `facePrompt` (no else-branch: `keepFace:false`
keeps the generic initializer, with no demographic targeting language). -/
def composePromptStale (config : GenerationConfig) (userPrompt : String) : String :=
  stalePromptLead ++
    (if config.lockProduct then staleProductClauseStrict else productClauseDefault) ++
    stalePromptBeforePose ++
    (posePromptBase ++
      (if config.strictPose then stalePosePromptStrict else "")) ++
    stalePromptBeforeFace ++
    (if config.keepFace then keepFaceClause else staleFaceDefault) ++
    stalePromptBeforeContext ++ userPrompt ++ ". " ++
    (if config.lockLocation then locationClause else "") ++
    stalePromptBeforeStyle ++
    (if config.blackAndWhite then stylePromptMono else stylePromptDefault) ++
    stalePromptTail

/-- The prompt built by `generateVariantImage` (part_002 lines 178-185). -/
def variantPrompt (setting angle : String) : String :=
  "\n        Product Photography Remix.\n        Object: Keep the main object/product from the input image exactly as is.\n        Setting: " ++
    setting ++
    ".\n        Camera Angle/Composition: " ++ angle ++
    ".\n        Lighting: Professional studio lighting matching the setting.\n        Style: High resolution, photorealistic, advertising standard.\n      "

/-! ## Generation entry points (part_002 lines 58-221) -/

/-- One attempt of `generateMarketingImage`'s wrapped operation: normalize
the input, issue the remote call (modelled by `remote`, a function of the
attempt index, the prompt and the normalized payload), scan the response
parts for the first inline-image part and build the data URI; when no part
carries inline data, fall back to the original `base64Image`.  The inner
`try/catch` only logs and rethrows, so it is transparent. -/
def marketingAttempt (env : String → FetchOutcome)
    (remote : Nat → String → String → Except JsError (List ResponsePart))
    (base64Image userPrompt : String) (config : GenerationConfig) (i : Nat) :
    Except JsError GenResult :=
  match prepareImageForAPI env base64Image with
  | Except.error e => Except.error e
  | Except.ok cleanBase64 =>
    match remote i (composePrompt config userPrompt) cleanBase64 with
    | Except.error e => Except.error e
    | Except.ok parts =>
      match firstInlineData parts with
      | some d => Except.ok ⟨"data:image/png;base64," ++ d⟩
      | none => Except.ok ⟨base64Image⟩

/-- `generateMarketingImage(base64Image, userPrompt, config)`:
the attempt body wrapped in `withRetry` with the default bound 3 and
default base delay 1000 ms. -/
def generateMarketingImage (env : String → FetchOutcome)
    (remote : Nat → String → String → Except JsError (List ResponsePart))
    (base64Image userPrompt : String) (config : GenerationConfig) :
    RetryTrace GenResult :=
  withRetry (marketingAttempt env remote base64Image userPrompt config) 3 1000

/-- One attempt of `generateVariantImage`'s wrapped operation: same shape
as the marketing attempt, but when no response part carries inline data it
throws `new Error("No image generated from Flash model")` instead of
falling back. -/
def variantAttempt (env : String → FetchOutcome)
    (remote : Nat → String → String → Except JsError (List ResponsePart))
    (base64Image setting angle : String) (i : Nat) :
    Except JsError GenResult :=
  match prepareImageForAPI env base64Image with
  | Except.error e => Except.error e
  | Except.ok cleanBase64 =>
    match remote i (variantPrompt setting angle) cleanBase64 with
    | Except.error e => Except.error e
    | Except.ok parts =>
      match firstInlineData parts with
      | some d => Except.ok ⟨"data:image/png;base64," ++ d⟩
      | none => Except.error ⟨none, "No image generated from Flash model"⟩

/-- `generateVariantImage(base64Image, setting, angle)`: the attempt body
wrapped in `withRetry` with the default bound 3 and delay 1000 ms. -/
def generateVariantImage (env : String → FetchOutcome)
    (remote : Nat → String → String → Except JsError (List ResponsePart))
    (base64Image setting angle : String) : RetryTrace GenResult :=
  withRetry (variantAttempt env remote base64Image setting angle) 3 1000

/-! ## A/B-test aggregation (`handleRunABTest`, part_000 lines 188-253) -/

/-- One aggregated A/B entry.  The synthetic engagement statistics
(`ctr`, `score`, `impressions`) are randomly generated UI dressing and are
not part of the aggregation logic, so they are not modelled. -/
structure ABTestResult where
  id : Char
  image : String
  settingName : String
deriving DecidableEq

/-- The `validResults` accumulation of `handleRunABTest`: the result of
`Promise.allSettled` is inspected by array position — slot `'A'` is pushed
first when `results[0]` is fulfilled, then slot `'B'` when `results[1]`
is. -/
def abValidResults (resultA resultB : Except (Option JsError) GenResult)
    (settingALabel settingBLabel : String) : List ABTestResult :=
  (match resultA with
   | Except.ok v => [⟨'A', v.imageUrl, settingALabel⟩]
   | Except.error _ => []) ++
  (match resultB with
   | Except.ok v => [⟨'B', v.imageUrl, settingBLabel⟩]
   | Except.error _ => [])

/-- The aggregation step of `handleRunABTest`: collect the fulfilled slots
in array order and throw `"Both variants failed to generate."` exactly
when both settled calls were rejections. -/
def handleRunABTest (resultA resultB : Except (Option JsError) GenResult)
    (settingALabel settingBLabel : String) :
    Except String (List ABTestResult) :=
  let valid := abValidResults resultA resultB settingALabel settingBLabel
  if valid.isEmpty then Except.error "Both variants failed to generate."
  else Except.ok valid

/-! ## Unfolding lemmas for the retry loop -/

theorem withRetryAux_zero {α : Type} (op : Nat → Except JsError α) (d i : Nat)
    (le : Option JsError) :
    withRetryAux op d i 0 le = ⟨0, [], Except.error le⟩ := rfl

theorem withRetryAux_ok {α : Type} {op : Nat → Except JsError α} {d i fuel : Nat}
    {le : Option JsError} {v : α} (h : op i = Except.ok v) :
    withRetryAux op d i (fuel + 1) le = ⟨1, [], Except.ok v⟩ := by
  simp [withRetryAux, h]

theorem withRetryAux_retry {α : Type} {op : Nat → Except JsError α} {d i fuel : Nat}
    {le : Option JsError} {e : JsError}
    (h : op i = Except.error e) (hr : isRetryable e = true) :
    withRetryAux op d i (fuel + 1) le =
      ⟨(withRetryAux op d (i + 1) fuel (some e)).attempts + 1,
       d * (i + 1) :: (withRetryAux op d (i + 1) fuel (some e)).delays,
       (withRetryAux op d (i + 1) fuel (some e)).result⟩ := by
  simp [withRetryAux, h, hr]

theorem withRetryAux_term {α : Type} {op : Nat → Except JsError α} {d i fuel : Nat}
    {le : Option JsError} {e : JsError}
    (h : op i = Except.error e) (hr : isRetryable e = false) :
    withRetryAux op d i (fuel + 1) le = ⟨1, [], Except.error (some e)⟩ := by
  simp [withRetryAux, h, hr]

/-- Every wait recorded at position `j` of the delay trace equals
`d * (i + j + 1)` where `i` is the attempt index the run started at. -/
theorem withRetryAux_delays_linear {α : Type} (op : Nat → Except JsError α) (d : Nat)
    (fuel : Nat) : ∀ (i : Nat) (le : Option JsError) (j : Nat),
      j < (withRetryAux op d i fuel le).delays.length →
      (withRetryAux op d i fuel le).delays[j]? = some (d * (i + j + 1)) := by
  induction fuel with
  | zero =>
    intro i le j h
    rw [withRetryAux_zero] at h
    simp at h
  | succ fuel ih =>
    intro i le j h
    cases hop : op i with
    | ok v =>
      rw [withRetryAux_ok hop] at h
      simp at h
    | error e =>
      cases hr : isRetryable e with
      | false =>
        rw [withRetryAux_term hop hr] at h
        simp at h
      | true =>
        rw [withRetryAux_retry hop hr] at h ⊢
        cases j with
        | zero => simp
        | succ j' =>
          simp only [List.length_cons, Nat.add_lt_add_iff_right] at h
          rw [List.getElem?_cons_succ, ih (i + 1) (some e) j' h]
          have harith : i + 1 + j' + 1 = i + (j' + 1) + 1 := by omega
          rw [harith]

/-! ## Claim theorems: retry behaviour -/

/-- Claim C1: with the default bound of 3, an operation that raises a
retryable error on every attempt is invoked exactly 3 times and the last
attempt's error is rethrown; an operation that raises a terminal
(non-retryable) error on the first attempt is invoked exactly once and
that error propagates immediately. -/
theorem claim1_retry_bound {α : Type} (op opT : Nat → Except JsError α)
    (e0 e1 e2 t : JsError)
    (h0 : op 0 = Except.error e0) (h1 : op 1 = Except.error e1)
    (h2 : op 2 = Except.error e2)
    (hr0 : isRetryable e0 = true) (hr1 : isRetryable e1 = true)
    (hr2 : isRetryable e2 = true)
    (ht : opT 0 = Except.error t) (hrt : isRetryable t = false) :
    ((withRetry op 3 1000).attempts = 3 ∧
      (withRetry op 3 1000).result = Except.error (some e2)) ∧
      (withRetry opT 3 1000).attempts = 1 ∧
      (withRetry opT 3 1000).result = Except.error (some t) := by
  constructor
  · have s3 : withRetry op 3 1000 = withRetryAux op 1000 0 (2 + 1) none := rfl
    rw [s3, withRetryAux_retry h0 hr0]
    have s2 : withRetryAux op 1000 1 2 (some e0) =
        withRetryAux op 1000 1 (1 + 1) (some e0) := rfl
    rw [s2, withRetryAux_retry h1 hr1]
    have s1 : withRetryAux op 1000 2 1 (some e1) =
        withRetryAux op 1000 2 (0 + 1) (some e1) := rfl
    rw [s1, withRetryAux_retry h2 hr2, withRetryAux_zero]
    simp
  · have s3 : withRetry opT 3 1000 = withRetryAux opT 1000 0 (2 + 1) none := rfl
    rw [s3, withRetryAux_term ht hrt]
    simp

/-- A concrete operation that always raises a retryable 503 error. -/
def retryAllOp : Nat → Except JsError Nat :=
  fun _ => Except.error ⟨some 503, "Service Unavailable"⟩

/-- A concrete operation that raises a terminal 400 error. -/
def terminalOp : Nat → Except JsError Nat :=
  fun _ => Except.error ⟨some 400, "Bad Request"⟩

theorem claim1_retry_bound_witness :
    ((withRetry retryAllOp 3 1000).attempts = 3 ∧
      (withRetry retryAllOp 3 1000).result =
        Except.error (some ⟨some 503, "Service Unavailable"⟩)) ∧
      (withRetry terminalOp 3 1000).attempts = 1 ∧
      (withRetry terminalOp 3 1000).result =
        Except.error (some ⟨some 400, "Bad Request"⟩) :=
  claim1_retry_bound retryAllOp terminalOp
    ⟨some 503, "Service Unavailable"⟩ ⟨some 503, "Service Unavailable"⟩
    ⟨some 503, "Service Unavailable"⟩ ⟨some 400, "Bad Request"⟩
    rfl rfl rfl (by decide) (by decide) (by decide) rfl (by decide)

/-- Claim C7: whenever the retry invoker waits after a retryable failure,
the `j`-th recorded wait (0-based, which is the wait after attempt index
`j`) equals `delay * (j + 1)` — linear in the attempt index, not
exponential; with the default base delay 1000 ms the waits are
1000, 2000, 3000, ... -/
theorem claim7_linear_backoff {α : Type} (op : Nat → Except JsError α)
    (retries delay j : Nat)
    (h : j < (withRetry op retries delay).delays.length) :
    (withRetry op retries delay).delays[j]? = some (delay * (j + 1)) := by
  have := withRetryAux_delays_linear op delay retries 0 none j h
  simpa using this

theorem claim7_linear_backoff_witness :
    1 < (withRetry retryAllOp 3 1000).delays.length ∧
      (withRetry retryAllOp 3 1000).delays[1]? = some 2000 :=
  ⟨by decide, claim7_linear_backoff retryAllOp 3 1000 1 (by decide)⟩

/-! ## Claim theorems: empty-result handling and terminal source errors -/

/-- Claim C2: when the remote call succeeds but no response part carries
an inline image, `generateMarketingImage` succeeds and returns the
original input string as `imageUrl`, while `generateVariantImage` fails
with the "No image generated from Flash model" error. -/
theorem claim2_empty_result_divergence
    (env : String → FetchOutcome)
    (remote : Nat → String → String → Except JsError (List ResponsePart))
    (input userPrompt setting angle clean : String) (config : GenerationConfig)
    (parts : List ResponsePart)
    (hprep : prepareImageForAPI env input = Except.ok clean)
    (hremote : ∀ i p c, remote i p c = Except.ok parts)
    (hparts : firstInlineData parts = none) :
    (generateMarketingImage env remote input userPrompt config).result =
        Except.ok ⟨input⟩ ∧
      (generateVariantImage env remote input setting angle).result =
        Except.error (some ⟨none, "No image generated from Flash model"⟩) := by
  constructor
  · have hatt : marketingAttempt env remote input userPrompt config 0 =
        Except.ok ⟨input⟩ := by
      unfold marketingAttempt
      simp only [hprep, hremote, hparts]
    show (withRetryAux (marketingAttempt env remote input userPrompt config)
        1000 0 (2 + 1) none).result = _
    rw [withRetryAux_ok hatt]
  · have hatt : variantAttempt env remote input setting angle 0 =
        Except.error ⟨none, "No image generated from Flash model"⟩ := by
      unfold variantAttempt
      simp only [hprep, hremote, hparts]
    show (withRetryAux (variantAttempt env remote input setting angle)
        1000 0 (2 + 1) none).result = _
    rw [withRetryAux_term hatt (by decide)]

/-- A fetch environment in which every remote fetch fails. -/
def envAllFail : String → FetchOutcome := fun _ => FetchOutcome.err

/-- A remote endpoint that always answers with a single text-only part
(no inline image data). -/
def remoteNoImage : Nat → String → String → Except JsError (List ResponsePart) :=
  fun _ _ _ => Except.ok [⟨none⟩]

/-- A sample configuration (all flags on their permissive side). -/
def sampleConfig : GenerationConfig := ⟨false, false, true, false, false⟩

theorem claim2_empty_result_divergence_witness :
    (generateMarketingImage envAllFail remoteNoImage "RAWPAYLOAD" "ctx"
        sampleConfig).result = Except.ok ⟨"RAWPAYLOAD"⟩ ∧
      (generateVariantImage envAllFail remoteNoImage "RAWPAYLOAD" "set"
        "ang").result =
        Except.error (some ⟨none, "No image generated from Flash model"⟩) :=
  claim2_empty_result_divergence envAllFail remoteNoImage "RAWPAYLOAD" "ctx"
    "set" "ang" "RAWPAYLOAD" sampleConfig [⟨none⟩] rfl (fun _ _ _ => rfl) rfl

/-- Claim C8: on an input that starts with "http" whose fetch fails, both
generation calls fail with the source-fetch error; that error is
classified terminal by the retry invoker, so exactly one attempt is made
and the error propagates. -/
theorem claim8_source_fetch_terminal
    (env : String → FetchOutcome)
    (remote : Nat → String → String → Except JsError (List ResponsePart))
    (input userPrompt setting angle : String) (config : GenerationConfig)
    (hhttp : jsStartsWith input "http" = true)
    (hfail : env input = FetchOutcome.err) :
    isRetryable sourceFetchError = false ∧
      (generateMarketingImage env remote input userPrompt config).attempts = 1 ∧
      (generateMarketingImage env remote input userPrompt config).result =
        Except.error (some sourceFetchError) ∧
      (generateVariantImage env remote input setting angle).attempts = 1 ∧
      (generateVariantImage env remote input setting angle).result =
        Except.error (some sourceFetchError) := by
  have hterm : isRetryable sourceFetchError = false := by decide
  have hprep : prepareImageForAPI env input = Except.error sourceFetchError := by
    unfold prepareImageForAPI prepareImageForAPIWithPath sourceFetchError
    rw [hhttp]
    simp [hfail]
  have hm : marketingAttempt env remote input userPrompt config 0 =
      Except.error sourceFetchError := by
    unfold marketingAttempt
    rw [hprep]
  have hv : variantAttempt env remote input setting angle 0 =
      Except.error sourceFetchError := by
    unfold variantAttempt
    rw [hprep]
  refine ⟨hterm, ?_, ?_, ?_, ?_⟩
  · show (withRetryAux (marketingAttempt env remote input userPrompt config)
        1000 0 (2 + 1) none).attempts = 1
    rw [withRetryAux_term hm hterm]
  · show (withRetryAux (marketingAttempt env remote input userPrompt config)
        1000 0 (2 + 1) none).result = _
    rw [withRetryAux_term hm hterm]
  · show (withRetryAux (variantAttempt env remote input setting angle)
        1000 0 (2 + 1) none).attempts = 1
    rw [withRetryAux_term hv hterm]
  · show (withRetryAux (variantAttempt env remote input setting angle)
        1000 0 (2 + 1) none).result = _
    rw [withRetryAux_term hv hterm]

theorem claim8_source_fetch_terminal_witness :
    isRetryable sourceFetchError = false ∧
      (generateMarketingImage envAllFail remoteNoImage
        "http://example.com/demo.jpg" "ctx" sampleConfig).attempts = 1 ∧
      (generateMarketingImage envAllFail remoteNoImage
        "http://example.com/demo.jpg" "ctx" sampleConfig).result =
        Except.error (some sourceFetchError) ∧
      (generateVariantImage envAllFail remoteNoImage
        "http://example.com/demo.jpg" "set" "ang").attempts = 1 ∧
      (generateVariantImage envAllFail remoteNoImage
        "http://example.com/demo.jpg" "set" "ang").result =
        Except.error (some sourceFetchError) :=
  claim8_source_fetch_terminal envAllFail remoteNoImage
    "http://example.com/demo.jpg" "ctx" "set" "ang" sampleConfig
    (by decide) rfl

/-! ## Claim theorem: A/B fan-out aggregation -/

/-- Claim C9: when exactly one of the two settled variant calls succeeds,
the aggregator returns exactly one result, tagged with the slot of the
successful call's array position, and does not raise; it raises exactly
when both calls fail. -/
theorem claim9_ab_partial_failure (v : GenResult) (eA eB : Option JsError)
    (sA sB : String) :
    handleRunABTest (Except.error eA) (Except.ok v) sA sB =
        Except.ok [⟨'B', v.imageUrl, sB⟩] ∧
      handleRunABTest (Except.ok v) (Except.error eB) sA sB =
        Except.ok [⟨'A', v.imageUrl, sA⟩] ∧
      handleRunABTest (Except.error eA) (Except.error eB) sA sB =
        Except.error "Both variants failed to generate." :=
  ⟨rfl, rfl, rfl⟩

/-! ## Substring occurrence lemmas -/

theorem isPrefixOfB_append (l t : List Char) : isPrefixOfB l (l ++ t) = true := by
  induction l with
  | nil => rfl
  | cons c cs ih => simp [isPrefixOfB, ih]

theorem occursB_append_left (sep t : List Char) (a : List Char)
    (h : occursB sep t = true) : occursB sep (a ++ t) = true := by
  induction a with
  | nil => simpa using h
  | cons c a' ih => simp [occursB, ih]

theorem occursB_here (sep t : List Char) : occursB sep (sep ++ t) = true := by
  cases sep with
  | nil =>
    cases t with
    | nil => rfl
    | cons c r => simp [occursB, isPrefixOfB]
  | cons c cs =>
    show (isPrefixOfB (c :: cs) ((c :: cs) ++ t) || occursB (c :: cs) (cs ++ t)) = true
    rw [isPrefixOfB_append]
    rfl

theorem data_append (a b : String) : (a ++ b).data = a.data ++ b.data := rfl

theorem jsIncludes_suffix (a : String) {t pat : String}
    (h : jsIncludes t pat = true) : jsIncludes (a ++ t) pat = true := by
  unfold jsIncludes at h ⊢
  rw [data_append]
  exact occursB_append_left _ _ _ h

theorem jsIncludes_here (pat t : String) : jsIncludes (pat ++ t) pat = true := by
  unfold jsIncludes
  rw [data_append]
  exact occursB_here _ _

theorem jsStartsWith_append (p s : String) : jsStartsWith (p ++ s) p = true := by
  unfold jsStartsWith
  rw [data_append]
  exact isPrefixOfB_append _ _

/-! ## Claim theorem: shape-only input classification -/

/-- Claim C10: `prepareImageForAPI` classifies purely by string shape —
every input starting with "http" takes the fetch branch (even a bare
payload that merely begins with those four characters), and the
pass-through branch fires exactly when the input neither starts with
"http" nor contains "base64,"; in that case the input is returned
unchanged. -/
theorem claim10_shape_classification (env : String → FetchOutcome)
    (input : String) :
    ((prepareImageForAPIWithPath env input).1 = PreparePath.fetchPath ↔
      jsStartsWith input "http" = true) ∧
      ((prepareImageForAPIWithPath env input).1 = PreparePath.passPath ↔
        (jsStartsWith input "http" = false ∧
          jsIncludes input "base64," = false)) ∧
      ((prepareImageForAPIWithPath env input).1 = PreparePath.passPath →
        prepareImageForAPI env input = Except.ok input) := by
  unfold prepareImageForAPI prepareImageForAPIWithPath
  cases hh : jsStartsWith input "http" with
  | true => simp
  | false =>
    cases hb : jsIncludes input "base64," with
    | true => simp
    | false => simp

theorem claim10_shape_classification_witness :
    (prepareImageForAPIWithPath envAllFail "httpRAWPAYLOAD").1 =
        PreparePath.fetchPath ∧
      (prepareImageForAPIWithPath envAllFail "BAREPAYLOAD").1 =
        PreparePath.passPath ∧
      prepareImageForAPI envAllFail "BAREPAYLOAD" = Except.ok "BAREPAYLOAD" :=
  ⟨(claim10_shape_classification envAllFail "httpRAWPAYLOAD").1.mpr (by decide),
   (claim10_shape_classification envAllFail "BAREPAYLOAD").2.1.mpr (by decide),
   (claim10_shape_classification envAllFail "BAREPAYLOAD").2.2
     ((claim10_shape_classification envAllFail "BAREPAYLOAD").2.1.mpr
       (by decide))⟩

/-! ## Claim theorems: prompt composition -/

set_option maxRecDepth 40000 in
/-- Claim C5: for `{lockProduct:true, strictPose:true, keepFace:true,
blackAndWhite:false, lockLocation:false}` and context "beach sunset", the
composed instruction (in the live composer and in the stale duplicate)
contains the strict label-preservation clause, the strict-pose clause and
the identity-retention clause, contains "beach sunset", and contains the
default commercial style clause instead of the monochrome clause. -/
theorem claim5_scenario_clauses :
    jsIncludes (composePrompt ⟨false, true, true, false, true⟩ "beach sunset")
        "You MUST preserve the PRODUCT TEXT, LOGOS, and LABEL DETAILS exactly as they appear in the reference image." = true ∧
      jsIncludes (composePrompt ⟨false, true, true, false, true⟩ "beach sunset")
        "STRICTLY mimic the exact arm angle, hand grip, and body posture of the reference image." = true ∧
      jsIncludes (composePrompt ⟨false, true, true, false, true⟩ "beach sunset")
        "Keep the user\x27s face and identity recognizable, but enhance lighting and skin texture for a professional look." = true ∧
      jsIncludes (composePrompt ⟨false, true, true, false, true⟩ "beach sunset")
        "beach sunset" = true ∧
      jsIncludes (composePrompt ⟨false, true, true, false, true⟩ "beach sunset")
        "Black and White Photography, High Contrast, Noir Style, Ansel Adams aesthetic." = false ∧
      jsIncludes (composePrompt ⟨false, true, true, false, true⟩ "beach sunset")
        "Commercial, High Key, 8k Resolution, Sharp Focus." = true ∧
      jsIncludes (composePromptStale ⟨false, true, true, false, true⟩ "beach sunset")
        "You MUST preserve the PRODUCT TEXT, LOGOS, and LABEL DETAILS exactly as they appear in the reference image." = true ∧
      jsIncludes (composePromptStale ⟨false, true, true, false, true⟩ "beach sunset")
        "STRICTLY mimic the exact arm angle, hand grip, and body posture of the reference image." = true ∧
      jsIncludes (composePromptStale ⟨false, true, true, false, true⟩ "beach sunset")
        "Keep the user\x27s face and identity recognizable, but enhance lighting and skin texture for a professional look." = true ∧
      jsIncludes (composePromptStale ⟨false, true, true, false, true⟩ "beach sunset")
        "beach sunset" = true ∧
      jsIncludes (composePromptStale ⟨false, true, true, false, true⟩ "beach sunset")
        "Black and White Photography, High Contrast, Noir Style, Ansel Adams aesthetic." = false ∧
      jsIncludes (composePromptStale ⟨false, true, true, false, true⟩ "beach sunset")
        "Commercial, High Key, 8k Resolution, Sharp Focus." = true := by
  decide

/-- Claim C6: in the (live) prompt composer, every configuration with
`keepFace` set yields an instruction containing the identity-retention
clause, and every configuration with `keepFace` unset yields one
containing the generative-replacement clause with demographic targeting
language. -/
theorem isPrefixOfB_extend {l x : List Char} (t : List Char)
    (h : isPrefixOfB l x = true) : isPrefixOfB l (x ++ t) = true := by
  induction l generalizing x with
  | nil => rfl
  | cons c cs ih =>
    cases x with
    | nil => simp [isPrefixOfB] at h
    | cons b bs =>
      simp only [isPrefixOfB, Bool.and_eq_true] at h ⊢
      exact ⟨h.1, ih h.2⟩

theorem occursB_nil_sep (t : List Char) : occursB [] t = true := by
  cases t with
  | nil => rfl
  | cons c r => simp [occursB, isPrefixOfB]

theorem occursB_append_right (sep a : List Char) (t : List Char)
    (h : occursB sep a = true) : occursB sep (a ++ t) = true := by
  induction a with
  | nil =>
    have hnil : sep = [] := by
      cases sep with
      | nil => rfl
      | cons c cs => simp [occursB, isPrefixOfB] at h
    subst hnil
    exact occursB_nil_sep t
  | cons c a' ih =>
    simp only [occursB, Bool.or_eq_true] at h
    cases h with
    | inl hpre =>
      have h2 : isPrefixOfB sep ((c :: a') ++ t) = true := isPrefixOfB_extend t hpre
      simp only [List.cons_append, occursB, Bool.or_eq_true]
      exact Or.inl (by simpa using h2)
    | inr hocc => simp [occursB, ih hocc]

theorem jsIncludes_extendR {a pat : String} (t : String)
    (h : jsIncludes a pat = true) : jsIncludes (a ++ t) pat = true := by
  unfold jsIncludes at h ⊢
  rw [data_append]
  exact occursB_append_right _ _ _ h

theorem jsIncludes_self (pat : String) : jsIncludes pat pat = true := by
  have h := jsIncludes_here pat ""
  simpa using h

theorem jsIncludes_left7 (a mid b1 b2 b3 b4 b5 b6 b7 : String) :
    jsIncludes (a ++ mid ++ b1 ++ b2 ++ b3 ++ b4 ++ b5 ++ b6 ++ b7) mid =
      true := by
  apply jsIncludes_extendR
  apply jsIncludes_extendR
  apply jsIncludes_extendR
  apply jsIncludes_extendR
  apply jsIncludes_extendR
  apply jsIncludes_extendR
  apply jsIncludes_extendR
  exact jsIncludes_suffix a (jsIncludes_self mid)

theorem claim6_face_clauses (config : GenerationConfig) (userPrompt : String) :
    (config.keepFace = true →
      jsIncludes (composePrompt config userPrompt) keepFaceClause = true) ∧
      (config.keepFace = false →
        jsIncludes (composePrompt config userPrompt) replaceFaceClause = true) := by
  obtain ⟨bw, sp, kf, ll, lp⟩ := config
  constructor
  · intro hk
    have hk' : kf = true := hk
    subst hk'
    exact jsIncludes_left7 _ _ _ _ _ _ _ _ _
  · intro hk
    have hk' : kf = false := hk
    subst hk'
    exact jsIncludes_left7 _ _ _ _ _ _ _ _ _

theorem claim6_face_clauses_witness :
    jsIncludes (composePrompt ⟨false, false, true, false, false⟩ "studio")
        keepFaceClause = true ∧
      jsIncludes (composePrompt ⟨false, false, false, false, false⟩ "studio")
        replaceFaceClause = true :=
  ⟨(claim6_face_clauses ⟨false, false, true, false, false⟩ "studio").1 rfl,
   (claim6_face_clauses ⟨false, false, false, false, false⟩ "studio").2 rfl⟩

/-! ## Claim theorems: output encoding (C3) -/

/-- A successful `withRetry` outcome is the outcome of some attempt. -/
theorem withRetryAux_ok_exists {α : Type} {op : Nat → Except JsError α} {d : Nat}
    (fuel : Nat) : ∀ (i : Nat) (le : Option JsError) (v : α),
      (withRetryAux op d i fuel le).result = Except.ok v →
        ∃ j, op j = Except.ok v := by
  induction fuel with
  | zero =>
    intro i le v h
    rw [withRetryAux_zero] at h
    simp at h
  | succ fuel ih =>
    intro i le v h
    cases hop : op i with
    | ok w =>
      rw [withRetryAux_ok hop] at h
      simp only [Except.ok.injEq] at h
      exact ⟨i, by rw [hop, h]⟩
    | error e =>
      cases hr : isRetryable e with
      | true =>
        rw [withRetryAux_retry hop hr] at h
        exact ih (i + 1) (some e) v h
      | false =>
        rw [withRetryAux_term hop hr] at h
        simp at h

/-- Shape of any successful variant attempt: the imageUrl carries the PNG
data-URI prefix. -/
theorem variantAttempt_ok_shape {env : String → FetchOutcome}
    {remote : Nat → String → String → Except JsError (List ResponsePart)}
    {base64Image setting angle : String} {i : Nat} {r : GenResult}
    (h : variantAttempt env remote base64Image setting angle i = Except.ok r) :
    ∃ d, r.imageUrl = "data:image/png;base64," ++ d := by
  unfold variantAttempt at h
  cases hp : prepareImageForAPI env base64Image with
  | error e => rw [hp] at h; simp at h
  | ok clean =>
    rw [hp] at h
    simp only [] at h
    cases hrem : remote i (variantPrompt setting angle) clean with
    | error e => rw [hrem] at h; simp at h
    | ok parts =>
      rw [hrem] at h
      simp only [] at h
      cases hfi : firstInlineData parts with
      | none => rw [hfi] at h; simp at h
      | some d =>
        rw [hfi] at h
        simp only [Except.ok.injEq] at h
        exact ⟨d, by rw [← h]⟩

/-- Shape of any successful marketing attempt: either the prefixed data
URI, or the untouched original input (the no-inline-part fallback). -/
theorem marketingAttempt_ok_shape {env : String → FetchOutcome}
    {remote : Nat → String → String → Except JsError (List ResponsePart)}
    {base64Image userPrompt : String} {config : GenerationConfig} {i : Nat}
    {r : GenResult}
    (h : marketingAttempt env remote base64Image userPrompt config i =
      Except.ok r) :
    (∃ d, r.imageUrl = "data:image/png;base64," ++ d) ∨
      r.imageUrl = base64Image := by
  unfold marketingAttempt at h
  cases hp : prepareImageForAPI env base64Image with
  | error e => rw [hp] at h; simp at h
  | ok clean =>
    rw [hp] at h
    simp only [] at h
    cases hrem : remote i (composePrompt config userPrompt) clean with
    | error e => rw [hrem] at h; simp at h
    | ok parts =>
      rw [hrem] at h
      simp only [] at h
      cases hfi : firstInlineData parts with
      | none =>
        rw [hfi] at h
        simp only [Except.ok.injEq] at h
        exact Or.inr (by rw [← h])
      | some d =>
        rw [hfi] at h
        simp only [Except.ok.injEq] at h
        exact Or.inl ⟨d, by rw [← h]⟩

/-- Counterexample to claim C3 as stated: a successful
`generateMarketingImage` call (remote answers with no inline-image part)
whose returned imageUrl is the raw input "SOMERAWINPUT", which does not
start with `data:image/png;base64,`. -/
theorem claim3_counterexample :
    (generateMarketingImage envAllFail remoteNoImage "SOMERAWINPUT" "ctx"
        sampleConfig).result = Except.ok ⟨"SOMERAWINPUT"⟩ ∧
      jsStartsWith "SOMERAWINPUT" "data:image/png;base64," = false := by
  constructor
  · rfl
  · decide

/-- Claim C3, amended: every successful `generateVariantImage` result
starts with the `data:image/png;base64,` prefix; every successful
`generateMarketingImage` result either starts with that prefix or (in the
no-inline-part fallback) is exactly the original input string. -/
theorem claim3_output_encoding (env : String → FetchOutcome)
    (remote : Nat → String → String → Except JsError (List ResponsePart))
    (input userPrompt setting angle : String) (config : GenerationConfig)
    (r : GenResult) :
    ((generateVariantImage env remote input setting angle).result =
        Except.ok r →
      jsStartsWith r.imageUrl "data:image/png;base64," = true) ∧
      ((generateMarketingImage env remote input userPrompt config).result =
          Except.ok r →
        (jsStartsWith r.imageUrl "data:image/png;base64," = true ∨
          r.imageUrl = input)) := by
  constructor
  · intro h
    obtain ⟨j, hj⟩ := withRetryAux_ok_exists 3 0 none r h
    obtain ⟨d, hd⟩ := variantAttempt_ok_shape hj
    rw [hd]
    exact jsStartsWith_append _ _
  · intro h
    obtain ⟨j, hj⟩ := withRetryAux_ok_exists 3 0 none r h
    cases marketingAttempt_ok_shape hj with
    | inl hdata =>
      obtain ⟨d, hd⟩ := hdata
      rw [hd]
      exact Or.inl (jsStartsWith_append _ _)
    | inr horig => exact Or.inr horig

/-- A remote endpoint answering with a single inline-image part. -/
def remoteWithImage : Nat → String → String → Except JsError (List ResponsePart) :=
  fun _ _ _ => Except.ok [⟨some "IMGDATA"⟩]

theorem claim3_output_encoding_witness :
    jsStartsWith (GenResult.mk "data:image/png;base64,IMGDATA").imageUrl
        "data:image/png;base64," = true ∧
      (jsStartsWith (GenResult.mk "SOMERAWINPUT").imageUrl
          "data:image/png;base64," = true ∨
        (GenResult.mk "SOMERAWINPUT").imageUrl = "SOMERAWINPUT") :=
  ⟨(claim3_output_encoding envAllFail remoteWithImage "BARE" "ctx" "set" "ang"
      sampleConfig ⟨"data:image/png;base64,IMGDATA"⟩).1 rfl,
   (claim3_output_encoding envAllFail remoteNoImage "SOMERAWINPUT" "ctx" "set"
      "ang" sampleConfig ⟨"SOMERAWINPUT"⟩).2 rfl⟩

/-! ## Round-trip of input normalization (C4) -/

theorem isPrefixOfB_exists {l x : List Char} (h : isPrefixOfB l x = true) :
    ∃ t, x = l ++ t := by
  induction l generalizing x with
  | nil => exact ⟨x, rfl⟩
  | cons c cs ih =>
    cases x with
    | nil => simp [isPrefixOfB] at h
    | cons b bs =>
      simp only [isPrefixOfB, Bool.and_eq_true, beq_iff_eq] at h
      obtain ⟨t, ht⟩ := ih h.2
      refine ⟨t, ?_⟩
      rw [List.cons_append, ← h.1, ht]

theorem list_eq_nil_or_concat (l : List Char) : l = [] ∨ ∃ t d, l = t ++ [d] := by
  induction l with
  | nil => exact Or.inl rfl
  | cons c cs ih =>
    cases ih with
    | inl h => exact Or.inr ⟨[], c, by simp [h]⟩
    | inr h =>
      obtain ⟨t, d, ht⟩ := h
      exact Or.inr ⟨c :: t, d, by simp [ht]⟩

/-- If the separator occurs nowhere in `s`, the splitter returns the whole
remaining input as a single segment. -/
theorem splitFuel_no_occurrence {sep : List Char} :
    ∀ (s : List Char), occursB sep s = false →
      ∀ (fuel : Nat) (acc : List Char), s.length ≤ fuel →
        splitFuel sep fuel s acc = [acc.reverse ++ s] := by
  intro s
  induction s with
  | nil =>
    intro h fuel acc hf
    cases fuel <;> simp [splitFuel]
  | cons c rest ih =>
    intro h fuel acc hf
    cases hpre : isPrefixOfB sep (c :: rest) with
    | true =>
      exfalso
      simp only [occursB, hpre, Bool.true_or] at h
      exact Bool.true_eq_false.mp h
    | false =>
      have hrest : occursB sep rest = false := by
        simp only [occursB, hpre, Bool.false_or] at h
        exact h
      cases fuel with
      | zero => simp at hf
      | succ fuel =>
        show splitFuel sep (fuel + 1) (c :: rest) acc = _
        rw [splitFuel]
        simp only [hpre, Bool.false_eq_true, if_false]
        rw [ih hrest fuel (c :: acc) (by simpa using hf)]
        simp

/-- If no occurrence of the separator starts strictly inside `pre`, the
splitter cuts exactly at the `sep` block between `pre` and `tail`. -/
theorem splitFuel_first_occurrence {sep : List Char} (hsep : sep ≠ []) :
    ∀ (pre : List Char) (tail : List Char),
      (∀ s', s' ≠ [] → (∃ a, pre = a ++ s') →
        isPrefixOfB sep (s' ++ (sep ++ tail)) = false) →
      ∀ (fuel : Nat) (acc : List Char),
        (pre ++ (sep ++ tail)).length ≤ fuel →
        ∃ f', tail.length ≤ f' ∧
          splitFuel sep fuel (pre ++ (sep ++ tail)) acc =
            (acc.reverse ++ pre) :: splitFuel sep f' tail [] := by
  intro pre
  induction pre with
  | nil =>
    intro tail hclean fuel acc hf
    obtain ⟨c, cs, hcs⟩ : ∃ c cs, sep = c :: cs := by
      cases hs : sep with
      | nil => exact absurd hs hsep
      | cons c cs => exact ⟨c, cs, rfl⟩
    subst hcs
    cases fuel with
    | zero => simp at hf
    | succ fuel =>
      refine ⟨fuel, ?_, ?_⟩
      · simp only [List.nil_append, List.length_append, List.length_cons] at hf
        omega
      · have hpre : isPrefixOfB (c :: cs) ((c :: cs) ++ tail) = true :=
          isPrefixOfB_append _ _
        simp only [List.cons_append] at hpre
        show splitFuel (c :: cs) (fuel + 1) (c :: (cs ++ tail)) acc = _
        rw [splitFuel]
        simp only [hpre, if_true]
        have hdrop : List.drop (c :: cs).length (c :: (cs ++ tail)) = tail := by
          show List.drop (cs.length + 1) (c :: (cs ++ tail)) = tail
          rw [List.drop_succ_cons, List.drop_left]
        rw [hdrop]
        simp
  | cons c pre' ih =>
    intro tail hclean fuel acc hf
    cases fuel with
    | zero => simp at hf
    | succ fuel =>
      have hnot : isPrefixOfB sep ((c :: pre') ++ (sep ++ tail)) = false :=
        hclean (c :: pre') (by simp) ⟨[], rfl⟩
      simp only [List.cons_append] at hnot
      have hclean' : ∀ s', s' ≠ [] → (∃ a, pre' = a ++ s') →
          isPrefixOfB sep (s' ++ (sep ++ tail)) = false := by
        intro s' h1 h2
        obtain ⟨a, ha⟩ := h2
        exact hclean s' h1 ⟨c :: a, by rw [ha, List.cons_append]⟩
      have hfuel' : (pre' ++ (sep ++ tail)).length ≤ fuel := by
        simp only [List.cons_append, List.length_cons] at hf
        simp only [List.length_append] at hf ⊢
        omega
      obtain ⟨f', hf', heq⟩ := ih tail hclean' fuel (c :: acc) hfuel'
      refine ⟨f', hf', ?_⟩
      show splitFuel sep (fuel + 1) (c :: (pre' ++ (sep ++ tail))) acc = _
      rw [splitFuel]
      simp only [hnot, Bool.false_eq_true, if_false]
      rw [heq]
      simp

/-- No occurrence of "base64," can start strictly inside
`"data:" ++ mime ++ ";"` when `mime` contains no comma: an occurrence
covering position 6 of the pattern would put a comma inside that prefix,
and a shorter straddling start would force the prefix's final ";" to be
one of the characters of "base64". -/
theorem c4_no_early_occurrence (mime p : String) (hm : ¬ (',' ∈ mime.data)) :
    ∀ s', s' ≠ [] → (∃ a, "data:".data ++ mime.data ++ [';'] = a ++ s') →
      isPrefixOfB "base64,".data (s' ++ ("base64,".data ++ p.data)) = false := by
  intro s' hne hex
  obtain ⟨a, ha⟩ := hex
  cases hval : isPrefixOfB "base64,".data (s' ++ ("base64,".data ++ p.data)) with
  | false => rfl
  | true =>
    exfalso
    obtain ⟨t, ht⟩ := isPrefixOfB_exists hval
    rcases le_or_lt 7 s'.length with hk | hk
    · -- the pattern is the first 7 characters of s', so s' holds a comma
      have h7 : ("base64,".data ++ t).take 7 = s'.take 7 := by
        rw [← ht]
        exact List.take_append_of_le_length hk
      have hsep7 : ("base64,".data ++ t).take 7 = "base64,".data :=
        List.take_left' (by decide)
      have hcm : ',' ∈ s' := by
        have hc : ',' ∈ s'.take 7 := by
          rw [← h7, hsep7]
          decide
        exact List.take_subset _ _ hc
      have hcm2 : ',' ∈ "data:".data ++ mime.data ++ [';'] := by
        rw [ha]
        exact List.mem_append.mpr (Or.inr hcm)
      rcases List.mem_append.mp hcm2 with h12 | h3
      · rcases List.mem_append.mp h12 with h1 | h2
        · exact absurd h1 (by decide)
        · exact hm h2
      · exact absurd h3 (by decide)
    · -- s' is a short prefix of the pattern, yet must end with ";"
      have h1 : ("base64,".data ++ t).take s'.length = s' := by
        rw [← ht]
        exact List.take_left' rfl
      have h2 : ("base64,".data ++ t).take s'.length =
          "base64,".data.take s'.length :=
        List.take_append_of_le_length (by simpa using Nat.le_of_lt hk)
      have hs' : s' = "base64,".data.take s'.length := h1.symm.trans h2
      obtain ⟨s'', d, hcon⟩ := (list_eq_nil_or_concat s').resolve_left hne
      have hd : d = ';' := by
        have heq : (a ++ s'') ++ [d] = ("data:".data ++ mime.data) ++ [';'] := by
          rw [List.append_assoc, ← hcon, ← ha]
        have hrev := congrArg List.reverse heq
        simp only [List.reverse_append, List.reverse_singleton,
          List.singleton_append, List.cons.injEq] at hrev
        exact hrev.1
      have hsem : ';' ∈ s' := by
        rw [hcon, hd]
        exact List.mem_append.mpr (Or.inr (by simp))
      have : ';' ∈ "base64,".data := by
        rw [hs'] at hsem
        exact List.take_subset _ _ hsem
      exact absurd this (by decide)

set_option maxRecDepth 4000 in
/-- Claim C4: normalizing the data URI `"data:" ++ mime ++ ";base64," ++ p`
through `prepareImageForAPI` yields exactly the payload `p`, for every
payload `p` that contains no occurrence of "base64," and does not start
with "http", and every comma-free mime type. -/
theorem claim4_roundtrip (mime p : String)
    (hm : ¬ (',' ∈ mime.data))
    (hp : jsIncludes p "base64," = false)
    (_hh : jsStartsWith p "http" = false)
    (env : String → FetchOutcome) :
    prepareImageForAPI env ("data:" ++ mime ++ ";base64," ++ p) =
      Except.ok p := by
  have hdata : ("data:" ++ mime ++ ";base64," ++ p).data =
      ("data:".data ++ mime.data ++ [';']) ++ ("base64,".data ++ p.data) := by
    have hsemi : (";base64,").data = [';'] ++ ("base64,").data := rfl
    simp only [data_append, hsemi, List.append_assoc, List.cons_append,
      List.nil_append]
  have hstart : jsStartsWith ("data:" ++ mime ++ ";base64," ++ p) "http" =
      false := by
    unfold jsStartsWith
    rw [hdata]
    rfl
  have hincl : jsIncludes ("data:" ++ mime ++ ";base64," ++ p) "base64," =
      true := by
    unfold jsIncludes
    rw [hdata]
    exact occursB_append_left _ _ _ (occursB_here _ _)
  have hsplit : jsSplit ("data:" ++ mime ++ ";base64," ++ p) "base64," =
      [String.mk ("data:".data ++ mime.data ++ [';']), p] := by
    unfold jsSplit
    rw [hdata]
    obtain ⟨f', hf', heq⟩ :=
      @splitFuel_first_occurrence "base64,".data (by decide)
        ("data:".data ++ mime.data ++ [';']) p.data
        (c4_no_early_occurrence mime p hm)
        ((("data:".data ++ mime.data ++ [';']) ++
          ("base64,".data ++ p.data)).length + 1)
        [] (Nat.le_succ _)
    rw [heq, splitFuel_no_occurrence p.data hp f' [] hf']
    simp
  unfold prepareImageForAPI prepareImageForAPIWithPath
  rw [hstart, hincl]
  simp only [Bool.false_eq_true, if_false, if_true]
  rw [hsplit]
  rfl

/-- An arbitrary fetch environment for instantiating C4. -/
def envAny : String → FetchOutcome := fun _ => FetchOutcome.err

theorem claim4_roundtrip_witness :
    ¬ (',' ∈ "image/jpeg".data) ∧
      jsIncludes "ABC123" "base64," = false ∧
      jsStartsWith "ABC123" "http" = false ∧
      prepareImageForAPI envAny "data:image/jpeg;base64,ABC123" =
        Except.ok "ABC123" :=
  ⟨by decide, by decide, by decide,
    claim4_roundtrip "image/jpeg" "ABC123" (by decide) (by decide) (by decide)
      envAny⟩

end MagicMirror
